import Mathlib

/-!
Verification development for the viral-kinetics dataset / classifier script
`NNModel.py`.

The script's bespoke logic is embedded shallowly:

* the four `bracket` methods (on `lazy_classifier`, `lazy_classifier2`,
  `ODEDatasetClassifier`, `ODEDatasetClassifierNoisy`) become pure functions
  of the instance fields `y_min`, `y_max` and the argument `y`; the local
  variable `y_mid = (y_min + y_max) / 2` of the Python code is inlined;
* the three `translate` methods become functions from an integer class
  index to `Option String` (a Python `match` with no wildcard case returns
  `None` when no case applies);
* a parsed CSV table is a list of rows, each row a pair of the index-column
  value and the 12 data fields (columns, in CSV order after the index:
  xTarget, xPre-Infected, xInfected, xVirus, xCDE8e, xCD8m, yTarget,
  yPre-Infected, yInfected, yVirus, yCDE8e, yCD8m), with numeric values
  modelled as real numbers;
* the dataset constructors become functions from a parsed table (and, for
  the noisy variant, an explicit noise matrix standing for the sampled
  Gaussian noise) to the stored data.
-/

namespace lazy_classifier

/-- Embedding of `lazy_classifier.bracket` (NNModel.py lines 176-185), with
`y_mid = (y_min + y_max) / 2` inlined.  Generic over an ordered field so the
same code can be read at `ℚ` for concrete evaluation and at `ℝ` for the
dataset classes. -/
def bracket {α : Type} [LinearOrderedField α] (y_min y_max y : α) : ℕ :=
  if y > (y_min + y_max) / 2 then
    if y > ((y_min + y_max) / 2 + y_max) / 2 then 3
    else 2
  else if y > ((y_min + y_max) / 2 + y_min) / 2 then 1
  else 0

/-- Embedding of `lazy_classifier.translate` (NNModel.py lines 187-196): a `match` on the
prediction with cases `0..3` and no default, hence `none` elsewhere. -/
def translate (prediction : ℤ) : Option String :=
  match prediction with
  | 0 => some "Low"
  | 1 => some "Medium-Low"
  | 2 => some "Medium-High"
  | 3 => some "High"
  | _ => none

end lazy_classifier

namespace lazy_classifier2

/-- Embedding of `lazy_classifier2.bracket` (NNModel.py lines 226-235), with
`y_mid` inlined. -/
def bracket {α : Type} [LinearOrderedField α] (y_min y_max y : α) : ℕ :=
  if y > (y_min + y_max) / 2 then
    if y > ((y_min + y_max) / 2 + y_max) / 2 then 3
    else 2
  else if y > ((y_min + y_max) / 2 + y_min) / 2 then 1
  else 0

/-- Embedding of `lazy_classifier2.translate` (NNModel.py lines 237-246): note that its
label table differs from the other two classes (0 maps to "Medium-Low" and
both 2 and 3 map to "High"). -/
def translate (prediction : ℤ) : Option String :=
  match prediction with
  | 0 => some "Medium-Low"
  | 1 => some "Medium-High"
  | 2 => some "High"
  | 3 => some "High"
  | _ => none

end lazy_classifier2

namespace ViralKineticsDNNClassifier

/-- Embedding of `ViralKineticsDNNClassifier.translate` (NNModel.py lines 106-115). -/
def translate (prediction : ℤ) : Option String :=
  match prediction with
  | 0 => some "Low"
  | 1 => some "Medium-Low"
  | 2 => some "Medium-High"
  | 3 => some "High"
  | _ => none

end ViralKineticsDNNClassifier

namespace ODEDatasetClassifier

/-- Embedding of `ODEDatasetClassifier.bracket` (NNModel.py lines 272-281), with
`y_mid` inlined. -/
def bracket {α : Type} [LinearOrderedField α] (y_min y_max y : α) : ℕ :=
  if y > (y_min + y_max) / 2 then
    if y > ((y_min + y_max) / 2 + y_max) / 2 then 3
    else 2
  else if y > ((y_min + y_max) / 2 + y_min) / 2 then 1
  else 0

end ODEDatasetClassifier

namespace ODEDatasetClassifierNoisy

/-- Embedding of `ODEDatasetClassifierNoisy.bracket` (NNModel.py lines 324-333), with
`y_mid` inlined. -/
def bracket {α : Type} [LinearOrderedField α] (y_min y_max y : α) : ℕ :=
  if y > (y_min + y_max) / 2 then
    if y > ((y_min + y_max) / 2 + y_max) / 2 then 3
    else 2
  else if y > ((y_min + y_max) / 2 + y_min) / 2 then 1
  else 0

end ODEDatasetClassifierNoisy

section BracketLemmas

variable {α : Type} [LinearOrderedField α]

/-- The bracket value is one of the four literals, with no assumption on the
parameters. -/
lemma bracket_mem_range (y_min y_max y : α) :
    ODEDatasetClassifier.bracket y_min y_max y = 0 ∨
    ODEDatasetClassifier.bracket y_min y_max y = 1 ∨
    ODEDatasetClassifier.bracket y_min y_max y = 2 ∨
    ODEDatasetClassifier.bracket y_min y_max y = 3 := by
  unfold ODEDatasetClassifier.bracket
  split_ifs <;> simp

/-- When `y_min ≤ y_max` the bracket value is the number of the three ordered
thresholds strictly below `y`. -/
lemma bracket_eq_indicator_sum (y_min y_max y : α) (h : y_min ≤ y_max) :
    ODEDatasetClassifier.bracket y_min y_max y =
      (if ((y_min + y_max) / 2 + y_min) / 2 < y then 1 else 0) +
      (if (y_min + y_max) / 2 < y then 1 else 0) +
      (if ((y_min + y_max) / 2 + y_max) / 2 < y then 1 else 0) := by
  have h1 : ((y_min + y_max) / 2 + y_min) / 2 ≤ (y_min + y_max) / 2 := by linarith
  have h2 : (y_min + y_max) / 2 ≤ ((y_min + y_max) / 2 + y_max) / 2 := by linarith
  unfold ODEDatasetClassifier.bracket
  split_ifs with a b c <;> first
    | rfl
    | omega
    | (exfalso ; linarith)

lemma indicator_le_of_le (t y₁ y₂ : α) (h : y₁ ≤ y₂) :
    (if t < y₁ then (1 : ℕ) else 0) ≤ (if t < y₂ then 1 else 0) := by
  split_ifs with a b
  · exact le_refl _
  · exact absurd (lt_of_lt_of_le a h) b
  · exact Nat.zero_le _
  · exact Nat.zero_le _

/-- Monotonicity of `bracket` in `y` when `y_min ≤ y_max`. -/
lemma bracket_mono (y_min y_max : α) (h : y_min ≤ y_max) {y₁ y₂ : α}
    (hy : y₁ ≤ y₂) :
    ODEDatasetClassifier.bracket y_min y_max y₁ ≤
      ODEDatasetClassifier.bracket y_min y_max y₂ := by
  rw [bracket_eq_indicator_sum y_min y_max y₁ h,
    bracket_eq_indicator_sum y_min y_max y₂ h]
  exact Nat.add_le_add
    (Nat.add_le_add (indicator_le_of_le _ _ _ hy) (indicator_le_of_le _ _ _ hy))
    (indicator_le_of_le _ _ _ hy)

end BracketLemmas

/-- C1: for every real input `y` and thresholds `y_min ≤ y_max`, the bracket
operation (both the `lazy_classifier` and the `ODEDatasetClassifier` copy)
returns one of `{0,1,2,3}` and is monotonic non-decreasing in `y`. -/
theorem bracket_range_and_monotone (y_min y_max : ℝ) (h : y_min ≤ y_max) :
    (∀ y : ℝ,
      (ODEDatasetClassifier.bracket y_min y_max y = 0 ∨
       ODEDatasetClassifier.bracket y_min y_max y = 1 ∨
       ODEDatasetClassifier.bracket y_min y_max y = 2 ∨
       ODEDatasetClassifier.bracket y_min y_max y = 3) ∧
      lazy_classifier.bracket y_min y_max y =
        ODEDatasetClassifier.bracket y_min y_max y) ∧
    (∀ y₁ y₂ : ℝ, y₁ ≤ y₂ →
      ODEDatasetClassifier.bracket y_min y_max y₁ ≤
        ODEDatasetClassifier.bracket y_min y_max y₂ ∧
      lazy_classifier.bracket y_min y_max y₁ ≤
        lazy_classifier.bracket y_min y_max y₂) := by
  refine ⟨fun y => ⟨bracket_mem_range y_min y_max y, rfl⟩, fun y₁ y₂ hy => ?_⟩
  have hm := bracket_mono y_min y_max h hy
  exact ⟨hm, hm⟩

/-- For ordered parameters, the bracket value is characterized exactly by the
position of `y` relative to the three thresholds. -/
lemma bracket_eq_iff {α : Type} [LinearOrderedField α] (y_min y_max z : α)
    (h : y_min ≤ y_max) :
    (ODEDatasetClassifier.bracket y_min y_max z = 3 ↔
      ((y_min + y_max) / 2 + y_max) / 2 < z) ∧
    (ODEDatasetClassifier.bracket y_min y_max z = 2 ↔
      ((y_min + y_max) / 2 < z ∧ z ≤ ((y_min + y_max) / 2 + y_max) / 2)) ∧
    (ODEDatasetClassifier.bracket y_min y_max z = 1 ↔
      (((y_min + y_max) / 2 + y_min) / 2 < z ∧ z ≤ (y_min + y_max) / 2)) ∧
    (ODEDatasetClassifier.bracket y_min y_max z = 0 ↔
      z ≤ ((y_min + y_max) / 2 + y_min) / 2) := by
  have h1 : ((y_min + y_max) / 2 + y_min) / 2 ≤ (y_min + y_max) / 2 := by
    linarith
  have h2 : (y_min + y_max) / 2 ≤ ((y_min + y_max) / 2 + y_max) / 2 := by
    linarith
  unfold ODEDatasetClassifier.bracket
  split_ifs with a b c
  · refine ⟨iff_of_true rfl b, iff_of_false ?_ ?_, iff_of_false ?_ ?_,
      iff_of_false ?_ ?_⟩
    · first
      | omega
      | exact not_false
    · rintro ⟨-, hz⟩
      linarith
    · first
      | omega
      | exact not_false
    · rintro ⟨-, hz⟩
      linarith
    · first
      | omega
      | exact not_false
    · intro hz
      linarith
  · refine ⟨iff_of_false ?_ b, iff_of_true rfl ⟨a, not_lt.1 b⟩,
      iff_of_false ?_ ?_, iff_of_false ?_ ?_⟩
    · first
      | omega
      | exact not_false
    · first
      | omega
      | exact not_false
    · rintro ⟨-, hz⟩
      linarith
    · first
      | omega
      | exact not_false
    · intro hz
      linarith
  · refine ⟨iff_of_false ?_ ?_, iff_of_false ?_ ?_,
      iff_of_true rfl ⟨c, not_lt.1 a⟩, iff_of_false ?_ ?_⟩
    · first
      | omega
      | exact not_false
    · intro hz
      exact a (lt_of_le_of_lt h2 hz)
    · first
      | omega
      | exact not_false
    · rintro ⟨hz, -⟩
      exact a hz
    · first
      | omega
      | exact not_false
    · intro hz
      linarith
  · refine ⟨iff_of_false ?_ ?_, iff_of_false ?_ ?_, iff_of_false ?_ ?_,
      iff_of_true rfl (not_lt.1 c)⟩
    · first
      | omega
      | exact not_false
    · intro hz
      exact a (lt_of_le_of_lt h2 hz)
    · first
      | omega
      | exact not_false
    · rintro ⟨hz, -⟩
      exact a hz
    · first
      | omega
      | exact not_false
    · rintro ⟨hz, -⟩
      exact c hz

/-- C2: with `mid = (y_min + y_max)/2`, bracket returns 3 exactly when
`y > (mid + y_max)/2`, 2 exactly when `mid < y ≤ (mid + y_max)/2`, 1 exactly
when `(mid + y_min)/2 < y ≤ mid`, 0 exactly when `y ≤ (mid + y_min)/2`;
threshold values fall into the lower bracket, and for `y_min < y_max` the
endpoints map to 0 and 3. -/
theorem bracket_threshold_characterization (y_min y_max y : ℝ)
    (h : y_min ≤ y_max) :
    (ODEDatasetClassifier.bracket y_min y_max y = 3 ↔
      ((y_min + y_max) / 2 + y_max) / 2 < y) ∧
    (ODEDatasetClassifier.bracket y_min y_max y = 2 ↔
      ((y_min + y_max) / 2 < y ∧ y ≤ ((y_min + y_max) / 2 + y_max) / 2)) ∧
    (ODEDatasetClassifier.bracket y_min y_max y = 1 ↔
      (((y_min + y_max) / 2 + y_min) / 2 < y ∧ y ≤ (y_min + y_max) / 2)) ∧
    (ODEDatasetClassifier.bracket y_min y_max y = 0 ↔
      y ≤ ((y_min + y_max) / 2 + y_min) / 2) ∧
    (y_min < y_max →
      ODEDatasetClassifier.bracket y_min y_max y_min = 0 ∧
      ODEDatasetClassifier.bracket y_min y_max y_max = 3) := by
  obtain ⟨i3, i2, i1, i0⟩ := bracket_eq_iff y_min y_max y h
  refine ⟨i3, i2, i1, i0, fun hlt => ?_⟩
  obtain ⟨-, -, -, j0⟩ := bracket_eq_iff y_min y_max y_min h
  obtain ⟨j3, -, -, -⟩ := bracket_eq_iff y_min y_max y_max h
  exact ⟨j0.2 (by linarith), j3.2 (by linarith)⟩

/-- C2 witness: the characterization applied at `y_min = 0`, `y_max = 4`,
`y = 4`, whose hypotheses `0 ≤ 4` and `0 < 4` hold. -/
theorem bracket_threshold_characterization_witness :
    (0 : ℝ) ≤ 4 ∧ (0 : ℝ) < 4 ∧
    ODEDatasetClassifier.bracket (0 : ℝ) 4 0 = 0 ∧
    ODEDatasetClassifier.bracket (0 : ℝ) 4 4 = 3 :=
  ⟨by norm_num, by norm_num,
   ((bracket_threshold_characterization 0 4 4 (by norm_num)).2.2.2.2
      (by norm_num)).1,
   ((bracket_threshold_characterization 0 4 4 (by norm_num)).2.2.2.2
      (by norm_num)).2⟩

/-- C3 counterexample: `lazy_classifier2.translate` sends class index 0 to
"Medium-Low", not to "Low" as the claim states for every classifier model. -/
theorem lazy_classifier2_translate_zero_counterexample :
    lazy_classifier2.translate 0 = some "Medium-Low" ∧
    (some "Medium-Low" : Option String) ≠ some "Low" :=
  ⟨rfl, by decide⟩

/-- C3 amended: `ViralKineticsDNNClassifier.translate` and
`lazy_classifier.translate` map 0, 1, 2, 3 to "Low", "Medium-Low",
"Medium-High", "High" respectively, while `lazy_classifier2.translate` maps
0, 1, 2, 3 to "Medium-Low", "Medium-High", "High", "High" (each class shifted
one bracket up, so its labels are not all distinct). -/
theorem translate_label_tables :
    (ViralKineticsDNNClassifier.translate 0 = some "Low" ∧
     ViralKineticsDNNClassifier.translate 1 = some "Medium-Low" ∧
     ViralKineticsDNNClassifier.translate 2 = some "Medium-High" ∧
     ViralKineticsDNNClassifier.translate 3 = some "High") ∧
    (lazy_classifier.translate 0 = some "Low" ∧
     lazy_classifier.translate 1 = some "Medium-Low" ∧
     lazy_classifier.translate 2 = some "Medium-High" ∧
     lazy_classifier.translate 3 = some "High") ∧
    (lazy_classifier2.translate 0 = some "Medium-Low" ∧
     lazy_classifier2.translate 1 = some "Medium-High" ∧
     lazy_classifier2.translate 2 = some "High" ∧
     lazy_classifier2.translate 3 = some "High") :=
  ⟨⟨rfl, rfl, rfl, rfl⟩, ⟨rfl, rfl, rfl, rfl⟩, ⟨rfl, rfl, rfl, rfl⟩⟩

/-- C9: the four bracket implementations compute one and the same function,
whose value always lies in `{0,1,2,3}`. -/
theorem bracket_implementations_agree (y_min y_max y : ℝ) :
    lazy_classifier.bracket y_min y_max y =
      ODEDatasetClassifier.bracket y_min y_max y ∧
    lazy_classifier2.bracket y_min y_max y =
      ODEDatasetClassifier.bracket y_min y_max y ∧
    ODEDatasetClassifierNoisy.bracket y_min y_max y =
      ODEDatasetClassifier.bracket y_min y_max y ∧
    (ODEDatasetClassifier.bracket y_min y_max y = 0 ∨
     ODEDatasetClassifier.bracket y_min y_max y = 1 ∨
     ODEDatasetClassifier.bracket y_min y_max y = 2 ∨
     ODEDatasetClassifier.bracket y_min y_max y = 3) :=
  ⟨rfl, rfl, rfl, bracket_mem_range y_min y_max y⟩

/-- C10: `translate` (in `ViralKineticsDNNClassifier` and `lazy_classifier`)
returns a label exactly on the inputs 0, 1, 2, 3 and `none` otherwise. -/
theorem translate_defined_exactly_on_classes (p : ℤ) :
    (ViralKineticsDNNClassifier.translate p = none ↔
      ¬(p = 0 ∨ p = 1 ∨ p = 2 ∨ p = 3)) ∧
    ((∃ s, ViralKineticsDNNClassifier.translate p = some s) ↔
      (p = 0 ∨ p = 1 ∨ p = 2 ∨ p = 3)) ∧
    (lazy_classifier.translate p = none ↔
      ¬(p = 0 ∨ p = 1 ∨ p = 2 ∨ p = 3)) ∧
    ((∃ s, lazy_classifier.translate p = some s) ↔
      (p = 0 ∨ p = 1 ∨ p = 2 ∨ p = 3)) := by
  have key : ViralKineticsDNNClassifier.translate p = none ↔
      ¬(p = 0 ∨ p = 1 ∨ p = 2 ∨ p = 3) := by
    rcases p with (_ | _ | _ | _ | n) | n
    · simp [ViralKineticsDNNClassifier.translate]
    · simp [ViralKineticsDNNClassifier.translate]
    · simp [ViralKineticsDNNClassifier.translate]
    · simp [ViralKineticsDNNClassifier.translate]
    · have e : ViralKineticsDNNClassifier.translate (Int.ofNat (n + 4)) =
          none := rfl
      rw [e]
      simp only [Int.ofNat_eq_coe, eq_self_iff_true, true_iff]
      omega
    · have e : ViralKineticsDNNClassifier.translate (Int.negSucc n) =
          none := rfl
      rw [e]
      simp only [Int.negSucc_eq, eq_self_iff_true, true_iff]
      omega
  have same : lazy_classifier.translate p =
      ViralKineticsDNNClassifier.translate p := rfl
  have someIff : (∃ s, ViralKineticsDNNClassifier.translate p = some s) ↔
      (p = 0 ∨ p = 1 ∨ p = 2 ∨ p = 3) := by
    constructor
    · rintro ⟨s, hs⟩
      by_contra hc
      rw [key.2 hc] at hs
      exact Option.noConfusion hs
    · intro hc
      rcases hc with rfl | rfl | rfl | rfl
      · exact ⟨"Low", rfl⟩
      · exact ⟨"Medium-Low", rfl⟩
      · exact ⟨"Medium-High", rfl⟩
      · exact ⟨"High", rfl⟩
  exact ⟨key, someIff, same ▸ key, same ▸ someIff⟩

/-- C1 witness: the theorem applied at `y_min = 0 ≤ 4 = y_max` and concrete
inputs. -/
theorem bracket_range_and_monotone_witness :
    (0 : ℝ) ≤ 4 ∧
    ((ODEDatasetClassifier.bracket (0 : ℝ) 4 3 = 0 ∨
      ODEDatasetClassifier.bracket (0 : ℝ) 4 3 = 1 ∨
      ODEDatasetClassifier.bracket (0 : ℝ) 4 3 = 2 ∨
      ODEDatasetClassifier.bracket (0 : ℝ) 4 3 = 3) ∧
     ODEDatasetClassifier.bracket (0 : ℝ) 4 1 ≤
       ODEDatasetClassifier.bracket (0 : ℝ) 4 3) :=
  ⟨by norm_num,
   ((bracket_range_and_monotone 0 4 (by norm_num)).1 3).1,
   ((bracket_range_and_monotone 0 4 (by norm_num)).2 1 3 (by norm_num)).1⟩

/-- A parsed CSV table: one entry per row, pairing the value of the leading
index column with the 12 numeric data fields (positions 0-5 the pre columns
xTarget, xPre-Infected, xInfected, xVirus, xCDE8e, xCD8m; positions 6-11 the
post columns yTarget ... yCD8m). -/
abbrev Table : Type := List (ℝ × (Fin 12 → ℝ))

/-- Elementwise `data.mask(data < 1, 1)` on one row (NNModel.py line 73):
every value strictly below 1 is replaced by 1. -/
noncomputable def maskRow (r : Fin 12 → ℝ) : Fin 12 → ℝ :=
  fun i => if r i < 1 then 1 else r i

/-- The six `np.log` assignments (NNModel.py lines 74-79): the natural
logarithm is applied to the 6 pre columns (positions 0-5) and the 6 post
columns (positions 6-11) are left unchanged. -/
noncomputable def logPreRow (r : Fin 12 → ℝ) : Fin 12 → ℝ :=
  fun i => if (i : ℕ) < 6 then Real.log (r i) else r i

namespace ODEDataset

/-- Embedding of `ODEDataset.__init__` (NNModel.py lines 69-79): drop the index column,
clip below 1, log-transform the 6 pre columns.  The stored dataset is the
list of transformed rows. -/
noncomputable def init (table : Table) : List (Fin 12 → ℝ) :=
  (table.map Prod.snd).map (fun r => logPreRow (maskRow r))

/-- Embedding of `ODEDataset.__getitem__` (NNModel.py lines 84-88): the first 6 entries of
the stored row are the features, the last 6 the regression targets. -/
def getItem (data : List (Fin 12 → ℝ)) (idx : ℕ) (h : idx < data.length) :
    (Fin 6 → ℝ) × (Fin 6 → ℝ) :=
  (fun i => data.get ⟨idx, h⟩ ⟨i.1, lt_trans i.2 (by norm_num)⟩,
   fun i => data.get ⟨idx, h⟩
     ⟨i.1 + 6, lt_of_lt_of_le (Nat.add_lt_add_right i.2 6) (by norm_num)⟩)

end ODEDataset

/-- The stored fields of an `ODEDatasetClassifier` instance (the noisy
variant stores data of the same shape): the 7 kept columns of every row, the
observed maximum and minimum of the kept post column, and the chosen post
index `atr`. -/
structure ClassifierData where
  data : List (Fin 7 → ℝ)
  y_max : ℝ
  y_min : ℝ
  atr : Fin 6

/-- Column selection performed by `data.drop(columns=y_cols)` (NNModel.py
lines 261-263): of the 12 columns only the 6 pre columns and the post column
at position `6 + atr` remain, in order. -/
def selectCols (atr : Fin 6) (r : Fin 12 → ℝ) : Fin 7 → ℝ :=
  fun i =>
    if h : (i : ℕ) < 6 then r ⟨i.1, lt_trans h (by norm_num)⟩
    else r ⟨6 + atr.1, lt_of_lt_of_le (Nat.add_lt_add_left atr.2 6) (by norm_num)⟩

/-- Maximum (pandas `data.max(axis=0)`) of one column, for a nonempty column (the script only
reads nonempty CSV files); on the empty list the value is fixed to 0. -/
noncomputable def colMax : List ℝ → ℝ
  | [] => 0
  | a :: t => t.foldl max a

/-- Minimum (pandas `data.min(axis=0)`) of one column, analogously. -/
noncomputable def colMin : List ℝ → ℝ
  | [] => 0
  | a :: t => t.foldl min a

namespace ODEDatasetClassifier

/-- Embedding of `ODEDatasetClassifier.__init__` (NNModel.py lines 250-267): drop the
index column, clip, log-transform the pre columns, drop all post columns but
`atr`, and record the maximum and minimum of the kept post column (position 6
of the remaining columns). -/
noncomputable def init (table : Table) (atr : Fin 6) : ClassifierData :=
  let kept :=
    ((table.map Prod.snd).map (fun r => logPreRow (maskRow r))).map
      (selectCols atr)
  { data := kept
    y_max := colMax (kept.map (fun r => r 6))
    y_min := colMin (kept.map (fun r => r 6))
    atr := atr }

/-- Embedding of `ODEDatasetClassifier.__getitem__` (NNModel.py lines 283-290): the
features are the 6 pre entries of the stored row; the label is the length-4
zero vector with entry `bracket(row[6])` set to 1. -/
noncomputable def getItem (self : ClassifierData) (idx : ℕ)
    (h : idx < self.data.length) : (Fin 6 → ℝ) × (Fin 4 → ℝ) :=
  let row := self.data.get ⟨idx, h⟩
  (fun i => row ⟨i.1, lt_trans i.2 (by norm_num)⟩,
   fun j => if (j : ℕ) = bracket self.y_min self.y_max (row 6) then 1 else 0)

end ODEDatasetClassifier

namespace ODEDatasetClassifierNoisy

/-- Embedding of `ODEDatasetClassifierNoisy.__init__` (NNModel.py lines 292-319): as the
non-noisy constructor, but with `data = data + noise` inserted between the
index-column drop and the clipping.  The sampled Gaussian noise matrix (one
entry per raw field of each record) is passed explicitly. -/
noncomputable def init (table : Table) (noise : List (Fin 12 → ℝ))
    (atr : Fin 6) : ClassifierData :=
  let noisy :=
    List.zipWith (fun r n => fun i => r i + n i) (table.map Prod.snd) noise
  let kept := (noisy.map (fun r => logPreRow (maskRow r))).map (selectCols atr)
  { data := kept
    y_max := colMax (kept.map (fun r => r 6))
    y_min := colMin (kept.map (fun r => r 6))
    atr := atr }

/-- Embedding of `ODEDatasetClassifierNoisy.__getitem__` (NNModel.py lines 335-342),
identical to the non-noisy `__getitem__`. -/
noncomputable def getItem (self : ClassifierData) (idx : ℕ)
    (h : idx < self.data.length) : (Fin 6 → ℝ) × (Fin 4 → ℝ) :=
  let row := self.data.get ⟨idx, h⟩
  (fun i => row ⟨i.1, lt_trans i.2 (by norm_num)⟩,
   fun j => if (j : ℕ) = bracket self.y_min self.y_max (row 6) then 1 else 0)

end ODEDatasetClassifierNoisy

/-- Every clipped value is at least 1. -/
lemma one_le_maskRow (r : Fin 12 → ℝ) (i : Fin 12) : 1 ≤ maskRow r i := by
  unfold maskRow
  split_ifs with hv
  · exact le_refl 1
  · exact not_lt.1 hv

/-- Bounds on the transformed row: log-transformed pre entries are
nonnegative, post entries stay at least 1. -/
lemma transform_bounds (r : Fin 12 → ℝ) (i : Fin 12) :
    ((i : ℕ) < 6 → 0 ≤ logPreRow (maskRow r) i) ∧
    (6 ≤ (i : ℕ) → 1 ≤ logPreRow (maskRow r) i) := by
  constructor
  · intro hi
    simp only [logPreRow, if_pos hi]
    exact Real.log_nonneg (one_le_maskRow r i)
  · intro hi
    simp only [logPreRow, if_neg (Nat.not_lt.2 hi)]
    exact one_le_maskRow r i

/-- C4: dataset construction first replaces every field strictly below 1
with 1 and then applies the natural logarithm to exactly the 6 pre columns;
the post columns are stored clipped without a log transform. -/
theorem init_clips_then_logs (table : Table) (r : Fin 12 → ℝ) :
    ODEDataset.init table =
      (table.map Prod.snd).map (fun s => logPreRow (maskRow s)) ∧
    (∀ i : Fin 12, (i : ℕ) < 6 →
      logPreRow (maskRow r) i = Real.log (if r i < 1 then 1 else r i)) ∧
    (∀ i : Fin 12, 6 ≤ (i : ℕ) →
      logPreRow (maskRow r) i = (if r i < 1 then 1 else r i)) := by
  refine ⟨rfl, fun i hi => ?_, fun i hi => ?_⟩
  · simp only [logPreRow, maskRow, if_pos hi]
  · simp only [logPreRow, maskRow, if_neg (Nat.not_lt.2 hi)]

/-- C4 witness: the characterization applied to the all-2 row at a pre column
(position 0) and a post column (position 6). -/
theorem init_clips_then_logs_witness :
    ((0 : ℕ) < 6 ∧
      logPreRow (maskRow (fun _ => 2)) ⟨0, by norm_num⟩ =
        Real.log (if (2 : ℝ) < 1 then 1 else 2)) ∧
    (6 ≤ (6 : ℕ) ∧
      logPreRow (maskRow (fun _ => 2)) ⟨6, by norm_num⟩ =
        (if (2 : ℝ) < 1 then 1 else 2)) :=
  ⟨⟨by norm_num,
    (init_clips_then_logs [] (fun _ => 2)).2.1 ⟨0, by norm_num⟩ (by norm_num)⟩,
   ⟨le_refl 6,
    (init_clips_then_logs [] (fun _ => 2)).2.2 ⟨6, by norm_num⟩ (by norm_num)⟩⟩

/-- C5: for every valid index, the classifier label is a one-hot vector: the
entry at position `bracket(row[6])` is 1 and every other entry is 0. -/
theorem getItem_label_one_hot (self : ClassifierData) (idx : ℕ)
    (h : idx < self.data.length) :
    ∃ hk : ODEDatasetClassifier.bracket self.y_min self.y_max
        (self.data.get ⟨idx, h⟩ 6) < 4,
      (ODEDatasetClassifier.getItem self idx h).2
          ⟨ODEDatasetClassifier.bracket self.y_min self.y_max
            (self.data.get ⟨idx, h⟩ 6), hk⟩ = 1 ∧
      ∀ j : Fin 4,
        (j : ℕ) ≠ ODEDatasetClassifier.bracket self.y_min self.y_max
          (self.data.get ⟨idx, h⟩ 6) →
        (ODEDatasetClassifier.getItem self idx h).2 j = 0 := by
  have hk : ODEDatasetClassifier.bracket self.y_min self.y_max
      (self.data.get ⟨idx, h⟩ 6) < 4 := by
    rcases bracket_mem_range self.y_min self.y_max
      (self.data.get ⟨idx, h⟩ 6) with e | e | e | e <;> omega
  refine ⟨hk, ?_, fun j hj => ?_⟩
  · simp only [ODEDatasetClassifier.getItem]
    simp
  · simp only [ODEDatasetClassifier.getItem]
    exact if_neg hj

/-- A concrete one-row classifier instance used by witnesses. -/
def exampleClassifier : ClassifierData :=
  { data := [fun _ => 1]
    y_max := 1
    y_min := 0
    atr := ⟨0, by norm_num⟩ }

/-- C5 witness: the one-hot property applied to the concrete one-row
instance at index 0. -/
theorem getItem_label_one_hot_witness :
    0 < exampleClassifier.data.length ∧
    ∃ hk : ODEDatasetClassifier.bracket exampleClassifier.y_min
        exampleClassifier.y_max
        (exampleClassifier.data.get ⟨0, by norm_num [exampleClassifier]⟩ 6) < 4,
      (ODEDatasetClassifier.getItem exampleClassifier 0
          (by norm_num [exampleClassifier])).2
          ⟨ODEDatasetClassifier.bracket exampleClassifier.y_min
            exampleClassifier.y_max
            (exampleClassifier.data.get
              ⟨0, by norm_num [exampleClassifier]⟩ 6), hk⟩ = 1 ∧
      ∀ j : Fin 4,
        (j : ℕ) ≠ ODEDatasetClassifier.bracket exampleClassifier.y_min
          exampleClassifier.y_max
          (exampleClassifier.data.get ⟨0, by norm_num [exampleClassifier]⟩ 6) →
        (ODEDatasetClassifier.getItem exampleClassifier 0
            (by norm_num [exampleClassifier])).2 j = 0 :=
  ⟨by norm_num [exampleClassifier],
   getItem_label_one_hot exampleClassifier 0 (by norm_num [exampleClassifier])⟩

/-- C6: the noisy constructor adds the noise to the 12 raw fields first and
only then clips and log-transforms: its result equals the non-noisy
constructor applied to the table whose raw fields are `raw + noise`. -/
theorem noisy_init_is_init_of_noised (table : Table)
    (noise : List (Fin 12 → ℝ)) (atr : Fin 6)
    (h : noise.length = table.length) :
    ODEDatasetClassifierNoisy.init table noise atr =
      ODEDatasetClassifier.init
        (List.zipWith (fun p n => (p.1, fun i => p.2 i + n i)) table noise)
        atr := by
  have key : List.zipWith (fun r n => fun i => r i + n i)
        (table.map Prod.snd) noise =
      (List.zipWith (fun p n => (p.1, fun i => p.2 i + n i))
        table noise).map Prod.snd := by
    rw [List.zipWith_map_left, List.map_zipWith]
  unfold ODEDatasetClassifierNoisy.init ODEDatasetClassifier.init
  rw [key]

/-- C6 witness: the equation applied to a concrete one-row table and one-row
noise matrix of equal length. -/
theorem noisy_init_is_init_of_noised_witness :
    ([fun _ => (1 : ℝ)] : List (Fin 12 → ℝ)).length =
      ([((0 : ℝ), fun _ => (2 : ℝ))] : Table).length ∧
    ODEDatasetClassifierNoisy.init [((0 : ℝ), fun _ => (2 : ℝ))]
        [fun _ => (1 : ℝ)] ⟨0, by norm_num⟩ =
      ODEDatasetClassifier.init
        (List.zipWith (fun p n => (p.1, fun i => p.2 i + n i))
          [((0 : ℝ), fun _ => (2 : ℝ))] [fun _ => (1 : ℝ)])
        ⟨0, by norm_num⟩ :=
  ⟨rfl,
   noisy_init_is_init_of_noised [((0 : ℝ), fun _ => (2 : ℝ))]
     [fun _ => (1 : ℝ)] ⟨0, by norm_num⟩ rfl⟩

/-- Bounds for a row of a classifier dataset built from any base list of raw
rows: pre entries are nonnegative, the kept post entry is at least 1. -/
lemma selectCols_transform_bounds (l : List (Fin 12 → ℝ)) (atr : Fin 6)
    (row : Fin 7 → ℝ)
    (hrow : row ∈ (l.map (fun r => logPreRow (maskRow r))).map
      (selectCols atr)) :
    (∀ i : Fin 7, (i : ℕ) < 6 → 0 ≤ row i) ∧ 1 ≤ row 6 := by
  rcases List.mem_map.1 hrow with ⟨s, hs, rfl⟩
  rcases List.mem_map.1 hs with ⟨r, hr, rfl⟩
  constructor
  · intro i hi
    simp only [selectCols, dif_pos hi]
    exact (transform_bounds r _).1 hi
  · have h6 : ¬(((6 : Fin 7) : ℕ) < 6) := by decide
    simp only [selectCols, dif_neg h6]
    exact (transform_bounds r _).2 (Nat.le_add_right 6 atr.1)

/-- C7: after construction every stored value is well defined: every
log-transformed pre entry is nonnegative and every not-yet-log-transformed
entry is at least 1 (hence positive); `__getitem__` only reads the stored
rows, so the returned features are exactly stored values. -/
theorem stored_values_invariant :
    (∀ r : Fin 12 → ℝ, ∀ i : Fin 12,
      ((i : ℕ) < 6 → 0 ≤ logPreRow (maskRow r) i) ∧
      (6 ≤ (i : ℕ) → 1 ≤ logPreRow (maskRow r) i)) ∧
    (∀ table : Table, ∀ atr : Fin 6,
      ∀ row ∈ (ODEDatasetClassifier.init table atr).data,
      (∀ i : Fin 7, (i : ℕ) < 6 → 0 ≤ row i) ∧ 1 ≤ row 6) ∧
    (∀ table : Table, ∀ noise : List (Fin 12 → ℝ), ∀ atr : Fin 6,
      ∀ row ∈ (ODEDatasetClassifierNoisy.init table noise atr).data,
      (∀ i : Fin 7, (i : ℕ) < 6 → 0 ≤ row i) ∧ 1 ≤ row 6) ∧
    (∀ data : List (Fin 12 → ℝ), ∀ idx : ℕ, ∀ h : idx < data.length,
      ∀ i : Fin 6,
      (ODEDataset.getItem data idx h).1 i =
        data.get ⟨idx, h⟩ ⟨i.1, lt_trans i.2 (by norm_num)⟩ ∧
      (ODEDataset.getItem data idx h).2 i =
        data.get ⟨idx, h⟩
          ⟨i.1 + 6, lt_of_lt_of_le (Nat.add_lt_add_right i.2 6)
            (by norm_num)⟩) ∧
    (∀ self : ClassifierData, ∀ idx : ℕ, ∀ h : idx < self.data.length,
      ∀ i : Fin 6,
      (ODEDatasetClassifier.getItem self idx h).1 i =
        self.data.get ⟨idx, h⟩ ⟨i.1, lt_trans i.2 (by norm_num)⟩) := by
  refine ⟨transform_bounds, ?_, ?_, ?_, ?_⟩
  · intro table atr row hrow
    exact selectCols_transform_bounds (table.map Prod.snd) atr row hrow
  · intro table noise atr row hrow
    exact selectCols_transform_bounds _ atr row hrow
  · intro data idx h i
    exact ⟨rfl, rfl⟩
  · intro self idx h i
    rfl

/-- C7 witness: the invariant applied to the all-2 row and to a concrete
one-row classifier dataset. -/
theorem stored_values_invariant_witness :
    ((0 : ℕ) < 6 ∧ 0 ≤ logPreRow (maskRow (fun _ => 2)) ⟨0, by norm_num⟩) ∧
    (selectCols ⟨0, by norm_num⟩ (logPreRow (maskRow (fun _ => 2))) ∈
        (ODEDatasetClassifier.init [((3 : ℝ), fun _ => 2)]
          ⟨0, by norm_num⟩).data ∧
      1 ≤ selectCols ⟨0, by norm_num⟩ (logPreRow (maskRow (fun _ => 2))) 6) :=
  ⟨⟨by norm_num,
    ((stored_values_invariant.1 (fun _ => 2) ⟨0, by norm_num⟩).1
      (by norm_num))⟩,
   ⟨List.Mem.head _,
    (stored_values_invariant.2.1 [((3 : ℝ), fun _ => 2)] ⟨0, by norm_num⟩
      (selectCols ⟨0, by norm_num⟩ (logPreRow (maskRow (fun _ => 2))))
      (List.Mem.head _)).2⟩⟩

/-- C8: the index column (first CSV column) is dropped by every dataset
constructor and never influences the result: two tables equal in all 12 data
fields of every row produce identical stored data, `y_min`, `y_max`, and
identical `__getitem__` results. -/
theorem index_column_never_influences (t₁ t₂ : Table) (atr : Fin 6)
    (hsnd : t₁.map Prod.snd = t₂.map Prod.snd) :
    ODEDataset.init t₁ = ODEDataset.init t₂ ∧
    ODEDatasetClassifier.init t₁ atr = ODEDatasetClassifier.init t₂ atr ∧
    (∀ noise : List (Fin 12 → ℝ),
      ODEDatasetClassifierNoisy.init t₁ noise atr =
        ODEDatasetClassifierNoisy.init t₂ noise atr) ∧
    (∀ idx : ℕ,
      ∀ h₁ : idx < (ODEDatasetClassifier.init t₁ atr).data.length,
      ∀ h₂ : idx < (ODEDatasetClassifier.init t₂ atr).data.length,
      ODEDatasetClassifier.getItem (ODEDatasetClassifier.init t₁ atr) idx h₁ =
        ODEDatasetClassifier.getItem (ODEDatasetClassifier.init t₂ atr)
          idx h₂) := by
  have e2 : ODEDatasetClassifier.init t₁ atr =
      ODEDatasetClassifier.init t₂ atr := by
    unfold ODEDatasetClassifier.init
    rw [hsnd]
  refine ⟨?_, e2, fun noise => ?_, fun idx h₁ h₂ => ?_⟩
  · unfold ODEDataset.init
    rw [hsnd]
  · unfold ODEDatasetClassifierNoisy.init
    rw [hsnd]
  · revert h₁
    rw [e2]
    intro h₁
    rfl

/-- C8 witness: two one-row tables differing only in the index column
produce the same classifier dataset. -/
theorem index_column_never_influences_witness :
    ([((0 : ℝ), fun _ => (5 : ℝ))] : Table).map Prod.snd =
      ([((1 : ℝ), fun _ => (5 : ℝ))] : Table).map Prod.snd ∧
    ODEDatasetClassifier.init [((0 : ℝ), fun _ => (5 : ℝ))] ⟨0, by norm_num⟩ =
      ODEDatasetClassifier.init [((1 : ℝ), fun _ => (5 : ℝ))]
        ⟨0, by norm_num⟩ :=
  ⟨rfl,
   (index_column_never_influences [((0 : ℝ), fun _ => (5 : ℝ))]
     [((1 : ℝ), fun _ => (5 : ℝ))] ⟨0, by norm_num⟩ rfl).2.1⟩
